import Mathlib

/-!
# Verification of questdb-connect (questdb_connect/dialect.py, questdb_connect/__init__.py)

Shallow embedding of the QuestDB SQLAlchemy dialect core: the table-engine
suffix compiler, the DDL compiler entry points, the identifier quoter, the
schema inspector's reflection loop, and the DBAPI cursor's query rewrite.
Python strings are modelled as Lean `String` (lists of characters where index
arithmetic matters), Python exceptions as `Except QDBError`, and mutation of
`self.compiled` as explicit state passing.
-/

namespace QuestDBConnect

/-- The `types.PartitionBy` enumeration (named members, looked up by name in
`reflect_table` via `types.PartitionBy[...]`). -/
inductive PartitionBy where
  | NONE
  | YEAR
  | MONTH
  | WEEK
  | DAY
  | HOUR
deriving DecidableEq, Repr

/-- Python's `Enum.name` attribute: the member's name as a string. -/
def PartitionBy.pbName : PartitionBy → String
  | .NONE => "NONE"
  | .YEAR => "YEAR"
  | .MONTH => "MONTH"
  | .WEEK => "WEEK"
  | .DAY => "DAY"
  | .HOUR => "HOUR"

/-- The members of the enumeration, used for name lookup. -/
def PartitionBy.members : List PartitionBy :=
  [PartitionBy.NONE, PartitionBy.YEAR, PartitionBy.MONTH,
   PartitionBy.WEEK, PartitionBy.DAY, PartitionBy.HOUR]

/-- Python's `Enum[name]` lookup (`types.PartitionBy[table_attrs['partitionBy']]`):
the member with the given name, or a `KeyError`. -/
def PartitionBy.fromName (s : String) : Option PartitionBy :=
  PartitionBy.members.find? (fun p => p.pbName == s)

/-- The Python exceptions raised by the embedded code, each carrying its message:
`types.ArgumentError`, bare `Exception` (schema DDL), `NoResultFound`,
`KeyError` (enum lookup), and the unknown-type error of the type registry. -/
inductive QDBError where
  | argumentError (msg : String)
  | exception (msg : String)
  | noResultFound (msg : String)
  | keyError (msg : String)
  | unknownType (msg : String)
deriving DecidableEq, Repr

deriving instance DecidableEq for Except

/-- `QDBTableEngine` (dialect.py:50-63): per-table DDL metadata plus the
memoized `compiled` suffix field, `None` until the first `get_table_suffix`. -/
structure QDBTableEngine where
  name : String
  ts_col_name : Option String
  partition_by : PartitionBy
  is_wal : Bool
  compiled : Option String
deriving DecidableEq, Repr

/-- `QDBTableEngine.__init__` (dialect.py:51-63): stores the fields and sets
`compiled = None`. -/
def QDBTableEngine.mkEngine (table_name : String) (ts_col_name : Option String)
    (partition_by : PartitionBy) (is_wal : Bool) : QDBTableEngine :=
  ⟨table_name, ts_col_name, partition_by, is_wal, none⟩

/-- `QDBTableEngine.get_table_suffix` (dialect.py:65-83). Returns either the
suffix string or the raised `ArgumentError`, paired with the updated object
state: the method assigns `self.compiled = ''` before validating and appends
clause by clause, so even a raising call leaves `compiled` holding whatever
had been appended so far. -/
def QDBTableEngine.get_table_suffix (e : QDBTableEngine) :
    Except QDBError String × QDBTableEngine :=
  match e.compiled with
  | some s => (Except.ok s, e)
  | none =>
    let has_ts := e.ts_col_name.isSome
    let is_partitioned := e.partition_by != PartitionBy.NONE
    let c1 := if has_ts then "TIMESTAMP(" ++ e.ts_col_name.getD ("") ++ ")" else ""
    if is_partitioned && !has_ts then
      (Except.error (QDBError.argumentError
        ("Designated timestamp must be specified for partitioned table")),
       { e with compiled := some c1 })
    else
      let c2 := if is_partitioned
        then c1 ++ " PARTITION BY " ++ e.partition_by.pbName else c1
      if e.is_wal && !is_partitioned then
        (Except.error (QDBError.argumentError
          ("Designated timestamp and partition by must be specified for WAL table")),
         { e with compiled := some c2 })
      else
        let c3 := if e.is_wal then c2 ++ " WAL" else c2
        (Except.ok c3, { e with compiled := some c3 })

/-- `_QUOTES` (dialect.py:92): the two quote characters. -/
def _QUOTES : List Char := ['\'', '"']

/-- `_quote_identifier` (dialect.py:95-104), on the identifier's characters:
empty input returns `None`; otherwise the slice `identifier[first:last]`
(skipping one leading and one trailing quote character when present) is
wrapped in single quotes. `(l.drop first).take (last - first)` matches
Python's clamping slice semantics, including `first > last`. -/
def quoteIdentChars (identifier : List Char) : Option (List Char) :=
  if identifier.isEmpty then none
  else
    let first : Nat := if _QUOTES.contains (identifier.headD ' ') then 1 else 0
    let last : Nat := if _QUOTES.contains (identifier.getLastD ' ')
      then identifier.length - 1 else identifier.length
    some ('\'' :: ((identifier.drop first).take (last - first)) ++ ['\''])

/-- `_quote_identifier` on Lean strings. -/
def _quote_identifier (identifier : String) : Option String :=
  (quoteIdentChars identifier.data).map (fun l => ⟨l⟩)

/-- Dropping one leading quote character when present (specification-side
helper for stating what `_quote_identifier` strips). -/
def stripLeadQuote : List Char → List Char
  | [] => []
  | c :: rest => if _QUOTES.contains c then rest else c :: rest

/-- Dropping one trailing quote character when present. -/
def stripTrailQuote (l : List Char) : List Char :=
  (stripLeadQuote l.reverse).reverse

/-- `QDBDDLCompiler.visit_create_schema` (dialect.py:116-117): always raises
`Exception('QuestDB does not support SCHEMAS')`, for every create request. -/
def visit_create_schema (_create : String) : Except QDBError String :=
  Except.error (QDBError.exception ("QuestDB does not support SCHEMAS"))

/-- `QDBDDLCompiler.visit_drop_schema` (dialect.py:119-120): same raise. -/
def visit_drop_schema (_drop : String) : Except QDBError String :=
  Except.error (QDBError.exception ("QuestDB does not support SCHEMAS"))

/-- Modelled from the spec: the type objects of `questdb_connect.types`
(module not under src/, named by the import list in `__init__.py:35-59`):
boolean, 8/16/32/64-bit integers, 32/64-bit floats, symbol, string, char,
UUID, date, microsecond timestamp, 256-bit long, and the geohash family at
byte/short/int/long widths. -/
inductive QDBType where
  | Boolean
  | Byte
  | Short
  | Int
  | Long
  | Float
  | Double
  | Symbol
  | String
  | Char
  | UUID
  | Date
  | Timestamp
  | Long256
  | GeohashByte
  | GeohashShort
  | GeohashInt
  | GeohashLong
deriving DecidableEq, Repr, Fintype

/-- Modelled from the spec: each registry type's database type name (the
static bidirectional registry of §4.2; geohash names carry their bit width). -/
def database_type_name : QDBType → String
  | .Boolean => "BOOLEAN"
  | .Byte => "BYTE"
  | .Short => "SHORT"
  | .Int => "INT"
  | .Long => "LONG"
  | .Float => "FLOAT"
  | .Double => "DOUBLE"
  | .Symbol => "SYMBOL"
  | .String => "STRING"
  | .Char => "CHAR"
  | .UUID => "UUID"
  | .Date => "DATE"
  | .Timestamp => "TIMESTAMP"
  | .Long256 => "LONG256"
  | .GeohashByte => "GEOHASH(8b)"
  | .GeohashShort => "GEOHASH(16b)"
  | .GeohashInt => "GEOHASH(32b)"
  | .GeohashLong => "GEOHASH(60b)"

/-- Modelled from the spec: `QUESTDB_TYPES`, the fixed enumerable registry. -/
def QUESTDB_TYPES : List QDBType :=
  [QDBType.Boolean, QDBType.Byte, QDBType.Short, QDBType.Int, QDBType.Long,
   QDBType.Float, QDBType.Double, QDBType.Symbol, QDBType.String, QDBType.Char,
   QDBType.UUID, QDBType.Date, QDBType.Timestamp, QDBType.Long256,
   QDBType.GeohashByte, QDBType.GeohashShort, QDBType.GeohashInt,
   QDBType.GeohashLong]

/-- Modelled from the spec: `resolve_type_from_name` of the missing
`questdb_connect.types` module — resolve a raw introspection type name to its
registry type; an unrecognized name fails with an unknown-type error and never
silently defaults. -/
def resolve_type_from_name (type_name : String) : Except QDBError QDBType :=
  match QUESTDB_TYPES.find? (fun t => database_type_name t == type_name) with
  | some t => Except.ok t
  | none => Except.error (QDBError.unknownType ("unsupported type: " ++ type_name))

/-- Modelled from the spec: `column_spec` of the missing type hierarchy —
each type renders its own database-native column specification from the
column name and its type name. -/
def column_spec (t : QDBType) (column_name : String) : String :=
  "'" ++ column_name ++ "' " ++ database_type_name t

/-- The type attached to a column handed to the DDL compiler: either one of
the dialect's own types (`isinstance(column.type, types.QDBTypeMixin)` holds)
or some foreign SQLAlchemy type. -/
inductive ColumnType where
  | qdb (t : QDBType)
  | other (descr : String)
deriving DecidableEq, Repr

/-- A column of a CREATE TABLE request: its name and its type object. -/
structure CTColumn where
  name : String
  ctype : ColumnType
deriving DecidableEq, Repr

/-- `QDBDDLCompiler.get_column_specification` (dialect.py:128-131): raises
`ArgumentError` unless the column's type is a QuestDB type, else delegates to
the type's `column_spec`. -/
def get_column_specification (c : CTColumn) : Except QDBError String :=
  match c.ctype with
  | ColumnType.qdb t => Except.ok (column_spec t c.name)
  | ColumnType.other _ =>
      Except.error (QDBError.argumentError ("Column type is not a valid QuestDB type"))

/-- The list comprehension of dialect.py:125: the specification of every
column, left to right, aborting at the first raising column. -/
def get_column_specs : List CTColumn → Except QDBError (List String)
  | [] => Except.ok []
  | c :: rest =>
    match get_column_specification c with
    | Except.error e => Except.error e
    | Except.ok s =>
      match get_column_specs rest with
      | Except.error e => Except.error e
      | Except.ok ss => Except.ok (s :: ss)

/-- `QDBDDLCompiler.visit_create_table` (dialect.py:122-126): builds
`CREATE TABLE '<fullname>' (<spec>, ...)`, then appends `') '` and the table
engine's suffix. Both the column comprehension and `get_table_suffix` can
raise; the engine's state update is threaded through. -/
def visit_create_table (fullname : String) (columns : List CTColumn)
    (engine : QDBTableEngine) : Except QDBError String × QDBTableEngine :=
  match get_column_specs columns with
  | Except.error e => (Except.error e, engine)
  | Except.ok specs =>
    let create_table := "CREATE TABLE '" ++ fullname ++ "' ("
      ++ String.intercalate (", ") specs
    match engine.get_table_suffix with
    | (Except.ok suffix, engine2) => (Except.ok (create_table ++ ") " ++ suffix), engine2)
    | (Except.error e, engine2) => (Except.error e, engine2)

/-- Python's `str.upper()`: uppercase each character. -/
def pyUpper (s : String) : String :=
  ⟨s.data.map Char.toUpper⟩

/-- Python truthiness of an optional string (`if col_ts_name:`): `None` and
the empty string are falsy. -/
def strTruthy : Option String → Bool
  | none => false
  | some s => !(s == "")

/-- A column appended to the reflected table (dialect.py:175-177): its name,
resolved type, and whether it was appended with `primary_key=True`. -/
structure ReflectedColumn where
  name : String
  ctype : QDBType
  primary_key : Bool
deriving DecidableEq, Repr

/-- The column loop of `QDBInspector.reflect_table` (dialect.py:167-177):
each `(name, raw type name)` row is skipped by the include/exclude filters
(Python truthiness: an empty filter list disables the filter), else its type
is resolved — a raise aborts the loop — and the column is marked primary key
iff the designated timestamp name is truthy and matches case-insensitively. -/
def reflect_rows (col_ts_name : Option String)
    (include_columns exclude_columns : List String) :
    List (String × String) → Except QDBError (List ReflectedColumn)
  | [] => Except.ok []
  | (col_name, type_name) :: rest =>
    if !include_columns.isEmpty && !include_columns.contains col_name then
      reflect_rows col_ts_name include_columns exclude_columns rest
    else if !exclude_columns.isEmpty && exclude_columns.contains col_name then
      reflect_rows col_ts_name include_columns exclude_columns rest
    else
      match resolve_type_from_name type_name with
      | Except.error e => Except.error e
      | Except.ok col_type =>
        match reflect_rows col_ts_name include_columns exclude_columns rest with
        | Except.error e => Except.error e
        | Except.ok restCols =>
          let pk := strTruthy col_ts_name
            && (pyUpper (col_ts_name.getD ("")) == pyUpper col_name)
          Except.ok ({ name := col_name, ctype := col_type, primary_key := pk } :: restCols)

/-- The first row of introspection query 1, `tables() WHERE name = ...`
(dialect.py:160-166): designated timestamp, partition-by name, WAL flag. -/
structure TableAttrs where
  designatedTimestamp : Option String
  partitionBy : String
  walEnabled : Bool
deriving DecidableEq, Repr

/-- `QDBInspector.reflect_table` (dialect.py:151-179), over the two
introspection query results: raises `NoResultFound` on an empty first query,
looks the partition-by name up in the enum (`KeyError` on a miss), runs the
column loop, and attaches a fresh `QDBTableEngine`. Returns the appended
columns in order together with the attached engine. -/
def reflect_table (table_name : String) (query1 : List TableAttrs)
    (rows : List (String × String))
    (include_columns exclude_columns : List String) :
    Except QDBError (List ReflectedColumn × QDBTableEngine) :=
  match query1 with
  | [] => Except.error (QDBError.noResultFound
      ("Table '" ++ table_name ++ "' does not exist"))
  | table_attrs :: _ =>
    match PartitionBy.fromName table_attrs.partitionBy with
    | none => Except.error (QDBError.keyError table_attrs.partitionBy)
    | some partition_by =>
      match reflect_rows table_attrs.designatedTimestamp
          include_columns exclude_columns rows with
      | Except.error e => Except.error e
      | Except.ok cols =>
        Except.ok (cols, QDBTableEngine.mkEngine table_name
          table_attrs.designatedTimestamp partition_by table_attrs.walEnabled)

/-- One metadata dictionary of `QDBInspector.get_columns` (dialect.py:185-191). -/
structure ColumnDict where
  name : String
  ctype : QDBType
  nullable : Bool
  autoincrement : Bool
  persisted : Bool
deriving DecidableEq, Repr

/-- The list comprehension of `get_columns` (dialect.py:185-191): one
dictionary per row, in order, aborting at the first type-resolution raise. -/
def get_columns_rows : List (String × String) → Except QDBError (List ColumnDict)
  | [] => Except.ok []
  | (col_name, type_name) :: rest =>
    match resolve_type_from_name type_name with
    | Except.error e => Except.error e
    | Except.ok t =>
      match get_columns_rows rest with
      | Except.error e => Except.error e
      | Except.ok ds =>
        Except.ok ({ name := col_name, ctype := t, nullable := true,
                     autoincrement := false, persisted := true } :: ds)

/-- `QDBInspector.get_columns` (dialect.py:181-191): `NoResultFound` when the
column-listing query returns nothing, else one dictionary per row. -/
def get_columns (table_name : String) (rows : List (String × String)) :
    Except QDBError (List ColumnDict) :=
  if rows.isEmpty then
    Except.error (QDBError.noResultFound ("Table '" ++ table_name ++ "' does not exist"))
  else get_columns_rows rows

/-- Modelled from the spec: `remove_public_schema` of the missing
`questdb_connect.common` module — strips the reserved namespace-qualification
prefix `public.` from outgoing SQL text, leaving other qualifiers alone. -/
def stripPublicChars : List Char → List Char
  | [] => []
  | 'p' :: 'u' :: 'b' :: 'l' :: 'i' :: 'c' :: '.' :: rest => stripPublicChars rest
  | c :: rest => c :: stripPublicChars rest

/-- `remove_public_schema` on Lean strings. -/
def remove_public_schema (query : String) : String :=
  ⟨stripPublicChars query.data⟩

/-- `Cursor.execute` (__init__.py:82-85): the SQL actually dispatched to the
underlying psycopg2 cursor is the rewritten query text. -/
def cursor_outgoing_sql (query : String) : String :=
  remove_public_schema query

/-- Whether a result is a raised `types.ArgumentError` (specification-side
discriminator). -/
def isArgumentError : Except QDBError String → Bool
  | Except.error (QDBError.argumentError _) => true
  | _ => false

/-- Specification-side helper: the registry type of a resolvable raw type
name (defaulting arbitrarily on unresolvable names; only used under the
hypothesis that the name resolves). -/
def resolvedType (type_name : String) : QDBType :=
  ((resolve_type_from_name type_name).toOption).getD QDBType.Boolean

/-- Specification-side helper: the column specification of a column that
carries a QuestDB type (empty on foreign types; only used under the
hypothesis that the type is a QuestDB type). -/
def columnSpecStr (c : CTColumn) : String :=
  match c.ctype with
  | ColumnType.qdb t => column_spec t c.name
  | ColumnType.other _ => ""

section Theorems

/-- `stripTrailQuote` on a list with an explicit last element: the last
element is dropped exactly when it is a quote character. -/
theorem stripTrailQuote_concat (ys : List Char) (a : Char) :
    stripTrailQuote (ys ++ [a]) =
      if _QUOTES.contains a then ys else ys ++ [a] := by
  unfold stripTrailQuote stripLeadQuote
  rw [List.reverse_append]
  by_cases h : a ∈ _QUOTES <;> simp [List.elem_eq_mem, h]

/-- C5: for every type in the fixed registry, resolving its database type
name yields the type itself, and resolving a name carried by no registry
type fails with an unknown-type error instead of defaulting. -/
theorem c5_type_registry_round_trip :
    (∀ t : QDBType, resolve_type_from_name (database_type_name t) = Except.ok t) ∧
    (∀ s : String, (∀ t : QDBType, database_type_name t ≠ s) →
      resolve_type_from_name s =
        Except.error (QDBError.unknownType ("unsupported type: " ++ s))) := by
  constructor
  · intro t
    cases t <;> rfl
  · intro s h
    unfold resolve_type_from_name
    have hnone : QUESTDB_TYPES.find? (fun t => database_type_name t == s) = none := by
      apply List.find?_eq_none.mpr
      intro t _
      simp only [beq_iff_eq]
      exact h t
    rw [hnone]

/-- Witness for C5 at the `Symbol` type and at the unregistered name
`"VARCHAR2"`. -/
theorem c5_type_registry_round_trip_witness :
    resolve_type_from_name (database_type_name QDBType.Symbol) = Except.ok QDBType.Symbol ∧
    resolve_type_from_name ("VARCHAR2") =
      Except.error (QDBError.unknownType ("unsupported type: " ++ "VARCHAR2")) :=
  ⟨c5_type_registry_round_trip.1 QDBType.Symbol,
   c5_type_registry_round_trip.2 ("VARCHAR2") (by decide)⟩

/-- C6: on every input, `visit_create_schema` and `visit_drop_schema` raise
the unsupported-schemas exception and never return SQL text. -/
theorem c6_schema_ddl_always_fails (create drop : String) :
    visit_create_schema create =
      Except.error (QDBError.exception ("QuestDB does not support SCHEMAS")) ∧
    visit_drop_schema drop =
      Except.error (QDBError.exception ("QuestDB does not support SCHEMAS")) :=
  ⟨rfl, rfl⟩

/-- C7: `Cursor.execute` strips the reserved `public.` namespace prefix from
the outgoing SQL, and leaves other qualifiers untouched. -/
theorem c7_public_prefix_rewrite :
    cursor_outgoing_sql ("SELECT * FROM public.t") = "SELECT * FROM t" ∧
    cursor_outgoing_sql ("SELECT * FROM other.t") = "SELECT * FROM other.t" := by
  exact ⟨rfl, rfl⟩

/-- C1: on a fresh descriptor satisfying the validity invariants
(partitioned implies a designated timestamp; WAL implies partitioned),
`get_table_suffix` returns, without raising, exactly the applicable clauses
in the order TIMESTAMP, PARTITION BY, WAL. -/
theorem c1_valid_engine_suffix (e : QDBTableEngine)
    (hc : e.compiled = none)
    (h1 : e.partition_by ≠ PartitionBy.NONE → e.ts_col_name.isSome = true)
    (h2 : e.is_wal = true → e.partition_by ≠ PartitionBy.NONE) :
    (e.get_table_suffix).1 = Except.ok
      ((if e.ts_col_name.isSome
          then "TIMESTAMP(" ++ e.ts_col_name.getD ("") ++ ")" else "")
        ++ (if e.partition_by = PartitionBy.NONE
            then "" else " PARTITION BY " ++ e.partition_by.pbName)
        ++ (if e.is_wal then " WAL" else "")) := by
  obtain ⟨n, ts, pb, wal, comp⟩ := e
  simp only at hc h1 h2 ⊢
  subst hc
  by_cases hpb : pb = PartitionBy.NONE
  · subst hpb
    have hw : wal = false := by
      cases wal
      · rfl
      · exact absurd (h2 rfl) (fun hcon => hcon rfl)
    subst hw
    cases ts with
    | none =>
      simp [QDBTableEngine.get_table_suffix]
    | some tsv =>
      simp [QDBTableEngine.get_table_suffix, String.append_empty]
  · have hts := h1 hpb
    obtain ⟨tsv, htv⟩ := Option.isSome_iff_exists.mp hts
    subst htv
    cases wal
    · simp [QDBTableEngine.get_table_suffix, hpb, String.append_empty,
        String.append_assoc]
      congr 2
    · simp [QDBTableEngine.get_table_suffix, hpb, String.append_empty,
        String.append_assoc]
      congr 2

/-- Witness for C1 at the spec's scenario: partition DAY, WAL, timestamp
column `ts`. -/
theorem c1_valid_engine_suffix_witness :
    ((QDBTableEngine.mkEngine ("t") (some ("ts")) PartitionBy.DAY true).get_table_suffix).1
      = Except.ok ("TIMESTAMP(ts) PARTITION BY DAY WAL") := by
  have h := c1_valid_engine_suffix
    (QDBTableEngine.mkEngine ("t") (some ("ts")) PartitionBy.DAY true)
    rfl (fun _ => rfl) (fun _ => by decide)
  rw [h]
  rfl

/-- C2 counterexample: a descriptor whose fields are invalid (WAL requested
without partitioning) on which `get_table_suffix` returns a partial suffix
string instead of failing — the state left behind by the descriptor's own
first (failing) call. -/
theorem c2_counterexample_partial_after_poisoned_memo :
    (((QDBTableEngine.mkEngine ("t") (some ("ts")) PartitionBy.NONE true
        ).get_table_suffix).2.is_wal = true
      ∧ ((QDBTableEngine.mkEngine ("t") (some ("ts")) PartitionBy.NONE true
        ).get_table_suffix).2.partition_by = PartitionBy.NONE)
    ∧ (((QDBTableEngine.mkEngine ("t") (some ("ts")) PartitionBy.NONE true
        ).get_table_suffix).2).get_table_suffix.1 = Except.ok ("TIMESTAMP(ts)") :=
  ⟨⟨rfl, rfl⟩, rfl⟩

/-- C2 (amended): on a descriptor whose memo is still unset — in particular
any freshly constructed descriptor — an invalid field combination makes
`get_table_suffix` raise `ArgumentError` and return no suffix string; once a
failed call has filled the memo with a partial string, later calls return
that partial string instead. -/
theorem c2_invalid_fresh_engine_fails (e : QDBTableEngine)
    (hc : e.compiled = none)
    (hbad : (e.partition_by ≠ PartitionBy.NONE ∧ e.ts_col_name = none)
          ∨ (e.is_wal = true ∧ e.partition_by = PartitionBy.NONE)) :
    isArgumentError (e.get_table_suffix).1 = true := by
  obtain ⟨n, ts, pb, wal, comp⟩ := e
  simp only at hc hbad ⊢
  subst hc
  rcases hbad with ⟨hpb, hts⟩ | ⟨hw, hpb⟩
  · subst hts
    simp [QDBTableEngine.get_table_suffix, hpb, isArgumentError]
  · subst hw
    subst hpb
    simp [QDBTableEngine.get_table_suffix, isArgumentError]

/-- Witness for C2 (amended) at a fresh partitioned descriptor with no
designated timestamp. -/
theorem c2_invalid_fresh_engine_fails_witness :
    isArgumentError
      ((QDBTableEngine.mkEngine ("t") none PartitionBy.DAY false).get_table_suffix).1
      = true :=
  c2_invalid_fresh_engine_fails
    (QDBTableEngine.mkEngine ("t") none PartitionBy.DAY false)
    rfl (Or.inl ⟨by decide, rfl⟩)

/-- C9: a first `get_table_suffix` call on a fresh descriptor — returning or
raising — always leaves a non-`None` string in the `compiled` memo, and a
further call on the resulting descriptor returns exactly that string without
raising and without touching the state. -/
theorem c9_memo_set_after_first_call (e : QDBTableEngine)
    (hc : e.compiled = none) :
    ((e.get_table_suffix).2.compiled.isSome = true)
    ∧ ((e.get_table_suffix).2).get_table_suffix =
        (Except.ok ((e.get_table_suffix).2.compiled.getD ("")),
         (e.get_table_suffix).2) := by
  have hsome : ∀ (f : QDBTableEngine) (c : String), f.compiled = some c →
      f.get_table_suffix = (Except.ok c, f) := by
    intro f c h
    unfold QDBTableEngine.get_table_suffix
    rw [h]
  obtain ⟨n, ts, pb, wal, comp⟩ := e
  simp only at hc ⊢
  subst hc
  have hres : ∃ c,
      (QDBTableEngine.get_table_suffix ⟨n, ts, pb, wal, none⟩).2.compiled = some c := by
    unfold QDBTableEngine.get_table_suffix
    dsimp only
    split
    · exact ⟨_, rfl⟩
    · split
      · exact ⟨_, rfl⟩
      · exact ⟨_, rfl⟩
  obtain ⟨c, hcomp⟩ := hres
  refine ⟨by rw [hcomp]; rfl, ?_⟩
  rw [hsome _ c hcomp, hcomp]
  rfl

/-- Witness for C9 at a fresh descriptor whose first call raises (WAL
without partitioning): the memo holds the partial string and the second call
returns it. -/
theorem c9_memo_set_after_first_call_witness :
    (((QDBTableEngine.mkEngine ("t") (some ("ts")) PartitionBy.NONE true
       ).get_table_suffix).2.compiled.isSome = true)
    ∧ (((QDBTableEngine.mkEngine ("t") (some ("ts")) PartitionBy.NONE true
       ).get_table_suffix).2).get_table_suffix =
        (Except.ok (((QDBTableEngine.mkEngine ("t") (some ("ts")) PartitionBy.NONE true
          ).get_table_suffix).2.compiled.getD ("")),
         ((QDBTableEngine.mkEngine ("t") (some ("ts")) PartitionBy.NONE true
          ).get_table_suffix).2) :=
  c9_memo_set_after_first_call
    (QDBTableEngine.mkEngine ("t") (some ("ts")) PartitionBy.NONE true) rfl

/-- `stripTrailQuote` through a leading cons. -/
theorem stripTrailQuote_cons_concat (c : Char) (ys : List Char) (a : Char) :
    stripTrailQuote (c :: (ys ++ [a])) =
      if _QUOTES.contains a then c :: ys else c :: (ys ++ [a]) := by
  have h := stripTrailQuote_concat (c :: ys) a
  simpa using h

/-- The slice arithmetic of `_quote_identifier` computes exactly "drop one
leading quote if present, drop one trailing quote if present", then wraps in
single quotes. -/
theorem quoteIdentChars_eq_strip (l : List Char) (h : l ≠ []) :
    quoteIdentChars l = some ('\'' :: stripTrailQuote (stripLeadQuote l) ++ ['\'']) := by
  cases l with
  | nil => exact absurd rfl h
  | cons c m =>
    rcases List.eq_nil_or_concat m with hm | ⟨ys, a, rfl⟩
    · subst hm
      by_cases hq : c ∈ _QUOTES <;>
        simp [quoteIdentChars, stripLeadQuote, stripTrailQuote, List.elem_eq_mem, hq]
    · have hlast : (c :: (ys ++ [a])).getLast? = some a := by
        rw [← List.cons_append]
        exact List.getLast?_concat _
      by_cases hq : c ∈ _QUOTES <;> by_cases ha : a ∈ _QUOTES
      all_goals
        simp [quoteIdentChars, stripLeadQuote, stripTrailQuote_cons_concat,
          stripTrailQuote_concat, List.elem_eq_mem, hq, ha, hlast,
          List.getLastD_eq_getLast?, List.take_left, List.take_append,
          Nat.add_sub_cancel, List.take_length]

/-- `quoteIdentChars` fixes anything already wrapped in single quotes. -/
theorem quoteIdentChars_wrap (mid : List Char) :
    quoteIdentChars ('\'' :: mid ++ ['\'']) = some ('\'' :: mid ++ ['\'']) := by
  rw [quoteIdentChars_eq_strip ('\'' :: mid ++ ['\'']) (by simp)]
  have hlead : stripLeadQuote ('\'' :: mid ++ ['\'']) = mid ++ ['\''] := by
    simp [stripLeadQuote, _QUOTES]
  rw [hlead, stripTrailQuote_concat]
  simp [_QUOTES]

/-- C10: `_quote_identifier` maps the empty identifier to `None`; every
non-empty identifier is stripped of at most one leading and at most one
trailing quote character and wrapped in single quotes; consequently it is
idempotent on non-empty identifiers: on its own output it returns that
output unchanged. -/
theorem c10_quote_identifier_strip_wrap_idempotent :
    (_quote_identifier ("") = none)
    ∧ (∀ s : String, s.data ≠ [] →
        _quote_identifier s =
          some (⟨'\'' :: stripTrailQuote (stripLeadQuote s.data) ++ ['\'']⟩ : String))
    ∧ (∀ s t : String, s.data ≠ [] → _quote_identifier s = some t →
        _quote_identifier t = some t) := by
  refine ⟨rfl, ?_, ?_⟩
  · intro s hs
    unfold _quote_identifier
    rw [quoteIdentChars_eq_strip s.data hs]
    rfl
  · intro s t hs hq
    unfold _quote_identifier at hq
    rw [quoteIdentChars_eq_strip s.data hs] at hq
    simp only [Option.map_some'] at hq
    have ht := Option.some.inj hq
    subst ht
    unfold _quote_identifier
    rw [show (⟨'\'' :: stripTrailQuote (stripLeadQuote s.data) ++ ['\'']⟩ : String).data
          = '\'' :: stripTrailQuote (stripLeadQuote s.data) ++ ['\''] from rfl]
    rw [quoteIdentChars_wrap]
    rfl

/-- Witness for C10 at the identifier `a`: quoting gives `'a'` and quoting
the output again leaves it unchanged. -/
theorem c10_quote_identifier_strip_wrap_idempotent_witness :
    _quote_identifier ("a") = some ("'a'")
    ∧ _quote_identifier ("'a'") = some ("'a'") := by
  have h2 := c10_quote_identifier_strip_wrap_idempotent.2.1 ("a") (by decide)
  have heq : _quote_identifier ("a") = some ("'a'") := by
    rw [h2]
    rfl
  exact ⟨heq,
    c10_quote_identifier_strip_wrap_idempotent.2.2 ("a") ("'a'") (by decide) heq⟩

/-- The reflection column loop keeps every row, in order, when the filters
exclude nothing and every raw type name resolves. -/
theorem reflect_rows_all_kept (ts : Option String)
    (inc exc : List String) (rows : List (String × String))
    (hkeep : ∀ r ∈ rows, (inc = [] ∨ r.1 ∈ inc) ∧ r.1 ∉ exc)
    (hres : ∀ r ∈ rows, ∃ t, resolve_type_from_name r.2 = Except.ok t) :
    reflect_rows ts inc exc rows = Except.ok (rows.map (fun r =>
      { name := r.1, ctype := resolvedType r.2,
        primary_key := strTruthy ts && (pyUpper (ts.getD ("")) == pyUpper r.1) })) := by
  induction rows with
  | nil => rfl
  | cons r rest ih =>
    obtain ⟨a, b⟩ := r
    obtain ⟨hinc, hexc⟩ := hkeep (a, b) (List.mem_cons_self _ _)
    obtain ⟨t, ht⟩ := hres (a, b) (List.mem_cons_self _ _)
    have ht2 : resolve_type_from_name b = Except.ok t := ht
    have hexc2 : a ∉ exc := hexc
    have ih2 := ih (fun r hr => hkeep r (List.mem_cons_of_mem _ hr))
      (fun r hr => hres r (List.mem_cons_of_mem _ hr))
    have hp1 : ¬(¬inc = [] ∧ ¬a ∈ inc) := by
      rcases hinc with h | h
      · exact fun hcon => hcon.1 h
      · exact fun hcon => hcon.2 h
    have hp2 : ¬(¬exc = [] ∧ a ∈ exc) := fun hcon => hexc2 hcon.2
    have hrt : resolvedType b = t := by
      simp [resolvedType, ht2, Except.toOption]
    simp [reflect_rows, hp1, hp2, ht2, ih2, hrt]

/-- C3: when the first introspection query reports a (truthy) designated
timestamp and a known partition granularity, and no row of the second query
is excluded by the filters (all its type names resolving), `reflect_table`
appends exactly one column per row, in row order, marking a column primary
key iff its name matches the designated timestamp case-insensitively. -/
theorem c3_reflect_table_appends_all_columns (table_name : String)
    (table_attrs : TableAttrs) (q1rest : List TableAttrs)
    (rows : List (String × String)) (include_columns exclude_columns : List String)
    (partition_by : PartitionBy)
    (hts : strTruthy table_attrs.designatedTimestamp = true)
    (hpb : PartitionBy.fromName table_attrs.partitionBy = some partition_by)
    (hkeep : ∀ r ∈ rows,
      (include_columns = [] ∨ r.1 ∈ include_columns) ∧ r.1 ∉ exclude_columns)
    (hres : ∀ r ∈ rows, ∃ t, resolve_type_from_name r.2 = Except.ok t) :
    reflect_table table_name (table_attrs :: q1rest) rows
        include_columns exclude_columns
      = Except.ok
        (rows.map (fun r =>
          { name := r.1, ctype := resolvedType r.2,
            primary_key :=
              (pyUpper (table_attrs.designatedTimestamp.getD ("")) == pyUpper r.1) }),
         QDBTableEngine.mkEngine table_name table_attrs.designatedTimestamp
           partition_by table_attrs.walEnabled) := by
  have hrows := reflect_rows_all_kept table_attrs.designatedTimestamp
    include_columns exclude_columns rows hkeep hres
  unfold reflect_table
  dsimp only
  rw [hpb, hrows]
  simp [hts]

/-- Witness for C3: a two-column table whose second column is the designated
timestamp; both columns are reflected in order and only the timestamp is a
primary key. -/
theorem c3_reflect_table_appends_all_columns_witness :
    reflect_table ("tab") [⟨some ("ts"), "DAY", true⟩]
        [("a", "DOUBLE"), ("ts", "TIMESTAMP")] [] []
      = Except.ok
        ([{ name := "a", ctype := QDBType.Double, primary_key := false },
          { name := "ts", ctype := QDBType.Timestamp, primary_key := true }],
         QDBTableEngine.mkEngine ("tab") (some ("ts")) PartitionBy.DAY true) := by
  have h := c3_reflect_table_appends_all_columns ("tab") ⟨some ("ts"), "DAY", true⟩
    [] [("a", "DOUBLE"), ("ts", "TIMESTAMP")] [] [] PartitionBy.DAY
    rfl (by decide) (by decide) (by decide)
  rw [h]
  rfl

/-- The `get_columns` comprehension yields one dictionary per row, in order,
when every raw type name resolves. -/
theorem get_columns_rows_all (rows : List (String × String))
    (hres : ∀ r ∈ rows, ∃ t, resolve_type_from_name r.2 = Except.ok t) :
    get_columns_rows rows = Except.ok (rows.map (fun r =>
      { name := r.1, ctype := resolvedType r.2, nullable := true,
        autoincrement := false, persisted := true })) := by
  induction rows with
  | nil => rfl
  | cons r rest ih =>
    obtain ⟨a, b⟩ := r
    obtain ⟨t, ht⟩ := hres (a, b) (List.mem_cons_self _ _)
    have ht2 : resolve_type_from_name b = Except.ok t := ht
    have ih2 := ih (fun r hr => hres r (List.mem_cons_of_mem _ hr))
    have hrt : resolvedType b = t := by
      simp [resolvedType, ht2, Except.toOption]
    simp [get_columns_rows, ht2, ih2, hrt]

/-- C8: on a non-empty column listing whose type names all resolve,
`get_columns` returns one metadata dictionary per row, in row order, with
`nullable` always true, `autoincrement` always false and `persisted` always
true. -/
theorem c8_get_columns_metadata (table_name : String)
    (rows : List (String × String)) (hne : rows ≠ [])
    (hres : ∀ r ∈ rows, ∃ t, resolve_type_from_name r.2 = Except.ok t) :
    get_columns table_name rows = Except.ok (rows.map (fun r =>
      { name := r.1, ctype := resolvedType r.2, nullable := true,
        autoincrement := false, persisted := true })) := by
  have hemp : rows.isEmpty = false := by
    cases rows with
    | nil => exact absurd rfl hne
    | cons r rest => rfl
  unfold get_columns
  rw [hemp]
  simp only [Bool.false_eq_true, if_false]
  exact get_columns_rows_all rows hres

/-- Witness for C8 at a concrete two-row listing. -/
theorem c8_get_columns_metadata_witness :
    get_columns ("tab") [("a", "DOUBLE"), ("ts", "TIMESTAMP")]
      = Except.ok
        [{ name := "a", ctype := QDBType.Double, nullable := true,
           autoincrement := false, persisted := true },
         { name := "ts", ctype := QDBType.Timestamp, nullable := true,
           autoincrement := false, persisted := true }] := by
  have h := c8_get_columns_metadata ("tab") [("a", "DOUBLE"), ("ts", "TIMESTAMP")]
    (by decide) (by decide)
  rw [h]
  rfl

/-- When every column carries a QuestDB type, the column comprehension
returns each column's specification in order. -/
theorem get_column_specs_all (columns : List CTColumn)
    (hall : ∀ c ∈ columns, ∃ t, c.ctype = ColumnType.qdb t) :
    get_column_specs columns = Except.ok (columns.map columnSpecStr) := by
  induction columns with
  | nil => rfl
  | cons c rest ih =>
    obtain ⟨t, ht⟩ := hall c (List.mem_cons_self _ _)
    have ih2 := ih (fun d hd => hall d (List.mem_cons_of_mem _ hd))
    have hspec : get_column_specification c = Except.ok (column_spec t c.name) := by
      unfold get_column_specification
      rw [ht]
    have hstr : columnSpecStr c = column_spec t c.name := by
      unfold columnSpecStr
      rw [ht]
    simp [get_column_specs, hspec, ih2, hstr]

/-- When some column carries a foreign type, the column comprehension raises
the `ArgumentError` of `get_column_specification`. -/
theorem get_column_specs_err (columns : List CTColumn)
    (hbad : ∃ c ∈ columns, ∀ t, c.ctype ≠ ColumnType.qdb t) :
    get_column_specs columns =
      Except.error (QDBError.argumentError
        ("Column type is not a valid QuestDB type")) := by
  induction columns with
  | nil =>
    obtain ⟨c, hc, _⟩ := hbad
    exact absurd hc (List.not_mem_nil c)
  | cons c rest ih =>
    obtain ⟨d, hd, hdbad⟩ := hbad
    rcases List.mem_cons.mp hd with rfl | hdrest
    · have hspec : get_column_specification d =
          Except.error (QDBError.argumentError
            ("Column type is not a valid QuestDB type")) := by
        unfold get_column_specification
        cases hct : d.ctype with
        | qdb t => exact absurd hct (hdbad t)
        | other descr => rfl
      simp [get_column_specs, hspec]
    · have ih2 := ih ⟨d, hdrest, hdbad⟩
      cases hspec : get_column_specification c with
      | error e =>
        have he : e = QDBError.argumentError
            ("Column type is not a valid QuestDB type") := by
          unfold get_column_specification at hspec
          cases hct : c.ctype with
          | qdb t =>
            rw [hct] at hspec
            exact absurd hspec (by simp)
          | other descr =>
            rw [hct] at hspec
            exact (Except.error.inj hspec).symm
        subst he
        simp [get_column_specs, hspec]
      | ok sp =>
        simp [get_column_specs, hspec, ih2]

/-- C4: when every column of the CREATE TABLE request carries a QuestDB type
and the engine compiles its suffix, `visit_create_table` emits exactly
`CREATE TABLE '<name>' (<spec>, ...) <suffix>` with the column
specifications comma-joined in column order; when some column carries a
foreign type, it raises `ArgumentError` and returns no string. -/
theorem c4_visit_create_table_ddl (fullname : String) (columns : List CTColumn)
    (engine : QDBTableEngine) :
    ((∀ c ∈ columns, ∃ t, c.ctype = ColumnType.qdb t) →
      ∀ suffix : String, (engine.get_table_suffix).1 = Except.ok suffix →
        (visit_create_table fullname columns engine).1 = Except.ok
          ("CREATE TABLE '" ++ fullname ++ "' ("
            ++ String.intercalate (", ") (columns.map columnSpecStr)
            ++ ") " ++ suffix))
    ∧ ((∃ c ∈ columns, ∀ t, c.ctype ≠ ColumnType.qdb t) →
        (visit_create_table fullname columns engine).1 =
          Except.error (QDBError.argumentError
            ("Column type is not a valid QuestDB type"))) := by
  constructor
  · intro hall suffix hsuf
    unfold visit_create_table
    rw [get_column_specs_all columns hall]
    rcases hp : engine.get_table_suffix with ⟨r, e2⟩
    rw [hp] at hsuf
    cases r with
    | error err => exact absurd hsuf (by simp)
    | ok sp =>
      have hs : sp = suffix := Except.ok.inj hsuf
      subst hs
      rfl
  · intro hbad
    unfold visit_create_table
    rw [get_column_specs_err columns hbad]

/-- Witness for C4: a two-column request yields the documented DDL text, and
a request with a foreign column type raises. -/
theorem c4_visit_create_table_ddl_witness :
    (visit_create_table ("tab")
        [⟨"a", ColumnType.qdb QDBType.Double⟩, ⟨"ts", ColumnType.qdb QDBType.Timestamp⟩]
        (QDBTableEngine.mkEngine ("tab") (some ("ts")) PartitionBy.DAY true)).1
      = Except.ok
        ("CREATE TABLE 'tab' ('a' DOUBLE, 'ts' TIMESTAMP) TIMESTAMP(ts) PARTITION BY DAY WAL")
    ∧ (visit_create_table ("tab") [⟨"v", ColumnType.other ("VARCHAR")⟩]
        (QDBTableEngine.mkEngine ("tab") (some ("ts")) PartitionBy.DAY true)).1
      = Except.error (QDBError.argumentError
          ("Column type is not a valid QuestDB type")) := by
  constructor
  · have h := (c4_visit_create_table_ddl ("tab")
      [⟨"a", ColumnType.qdb QDBType.Double⟩, ⟨"ts", ColumnType.qdb QDBType.Timestamp⟩]
      (QDBTableEngine.mkEngine ("tab") (some ("ts")) PartitionBy.DAY true)).1
      (by decide) ("TIMESTAMP(ts) PARTITION BY DAY WAL") rfl
    rw [h]
    rfl
  · exact (c4_visit_create_table_ddl ("tab") [⟨"v", ColumnType.other ("VARCHAR")⟩]
      (QDBTableEngine.mkEngine ("tab") (some ("ts")) PartitionBy.DAY true)).2
      ⟨⟨"v", ColumnType.other ("VARCHAR")⟩, by decide, by decide⟩

end Theorems

end QuestDBConnect
